import Mathlib

/-!
Verification development for the file-upload system: a client-side upload
scheduler (src/src/components/FileUploader.tsx) and a server-side ingestion
service (src/server/index.js).  The definitions below are a shallow embedding
of the source code; theorems settle the specification claims against them.
-/

namespace Uploader

/-- Constant from FileUploader.tsx: MAX_FILE_SIZE = 10 * 1024 * 1024. -/
def MAX_FILE_SIZE : Nat := 10 * 1024 * 1024

/-- Constant from FileUploader.tsx: MAX_CONCURRENT_UPLOADS = 2. -/
def MAX_CONCURRENT_UPLOADS : Nat := 2

/-- Constant from FileUploader.tsx: MAX_RETRIES = 3. -/
def MAX_RETRIES : Nat := 3

/-- The status field of FileWithMeta: pending, uploading, completed, failed. -/
inductive Status
  | pending
  | uploading
  | completed
  | failed
deriving DecidableEq, Repr

/-- One FileWithMeta object: the mutable fields attached to a file, plus a
numeric identity standing for JavaScript object identity. -/
structure Task where
  id : Nat
  status : Status
  progress : Nat
  error : Option String
  retryCount : Nat
deriving DecidableEq, Repr

/-- The component state: the files array, the uploadQueue ref (as task ids),
the activeUploads ref (a JavaScript number, so an integer that the code can
drive below zero), and a counter generating fresh object identities. -/
structure SchedState where
  files : List Task
  uploadQueue : List Nat
  activeUploads : Int
  nextId : Nat
deriving DecidableEq, Repr

/-- Math.round((loaded / total) * 100) for total > 0, computed exactly:
round half up of 100 * loaded / total equals the floor of
(200 * loaded + total) / (2 * total). -/
def jsRound (loaded total : Nat) : Nat := (200 * loaded + total) / (2 * total)

/-- Mutation of the single object with a given identity: updates the first
list entry satisfying the predicate (object identities are unique, so the
first match is the object the source code mutates in place). -/
def updateFirst (p : Task → Bool) (f : Task → Task) : List Task → List Task
  | [] => []
  | t :: ts => if p t then f t :: ts else t :: updateFirst p f ts

/-- Look up the task object with the given identity. -/
def findTask (s : SchedState) (id : Nat) : Option Task :=
  s.files.find? (fun t => t.id == id)

/-- The synchronous prefix of uploadFile: file.status = uploading,
file.progress = 0, then the request is sent. -/
def dispatchTask (files : List Task) (id : Nat) : List Task :=
  updateFirst (fun t => t.id == id)
    (fun t => { t with status := .uploading, progress := 0 }) files

/-- The processQueue while loop: while activeUploads < MAX_CONCURRENT_UPLOADS
and the queue is non-empty, shift the head, increment activeUploads and start
uploadFile on it.  Structural recursion on the queue. -/
def processQueueAux : List Nat → Int → List Task → Int × List Nat × List Task
  | [], active, files => (active, [], files)
  | id :: rest, active, files =>
    if active < (MAX_CONCURRENT_UPLOADS : Int) then
      processQueueAux rest (active + 1) (dispatchTask files id)
    else
      (active, id :: rest, files)

/-- processQueue applied to the whole state. -/
def processQueue (s : SchedState) : SchedState :=
  let r := processQueueAux s.uploadQueue s.activeUploads s.files
  { s with activeUploads := r.1, uploadQueue := r.2.1, files := r.2.2 }

/-- onDrop for one accepted file: a new FileWithMeta with status pending,
progress 0, retryCount 0 is appended to the files state. -/
def addFile (s : SchedState) : SchedState :=
  { s with
    files := s.files ++
      [{ id := s.nextId, status := .pending, progress := 0,
         error := none, retryCount := 0 }],
    nextId := s.nextId + 1 }

/-- The filter in handleUpload: files with status pending or failed. -/
def isEligible (t : Task) : Bool :=
  t.status == .pending || t.status == .failed

/-- handleUpload: uploadQueue.current is set to all pending or failed files,
activeUploads.current is reset to 0, then processQueue runs. -/
def handleUpload (s : SchedState) : SchedState :=
  processQueue
    { s with
      uploadQueue := (s.files.filter isEligible).map Task.id,
      activeUploads := 0 }

/-- handleRetry: status = pending, error cleared, retryCount incremented;
then either dispatch immediately (if a slot is free) or push to the queue.
The UI offers the retry button only on failed files, which the guard models. -/
def handleRetry (s : SchedState) (id : Nat) : SchedState :=
  match findTask s id with
  | some t =>
    if t.status == .failed then
      let files := updateFirst (fun u => u.id == id)
        (fun u => { u with status := .pending, error := none,
                           retryCount := u.retryCount + 1 }) s.files
      if s.activeUploads < (MAX_CONCURRENT_UPLOADS : Int) then
        { s with files := dispatchTask files id,
                 activeUploads := s.activeUploads + 1 }
      else
        { s with files := files, uploadQueue := s.uploadQueue ++ [id] }
    else s
  | none => s

/-- handleRemove: the file is removed from the files state and filtered out
of the upload queue. -/
def handleRemove (s : SchedState) (id : Nat) : SchedState :=
  { s with
    files := s.files.filter (fun t => t.id != id),
    uploadQueue := s.uploadQueue.filter (fun i => i != id) }

/-- xhr.upload.onprogress: for a computable length event,
file.progress = Math.round((event.loaded / event.total) * 100).  The source
writes the progress with no check of the task status, so a late event from
a stale duplicate request updates the task whatever its state; the condition
below only models event validity (lengthComputable, and the transport
reports loaded within total). -/
def onProgress (s : SchedState) (id loaded total : Nat) : SchedState :=
  if loaded ≤ total && 0 < total then
    { s with
      files := updateFirst (fun u => u.id == id)
        (fun u => { u with progress := jsRound loaded total }) s.files }
  else s

/-- xhr.onload with a 2xx status: file.status = completed, file.progress =
100; the finally block then decrements activeUploads and runs processQueue. -/
def onSuccess (s : SchedState) (id : Nat) : SchedState :=
  match findTask s id with
  | some t =>
    if t.status == .uploading then
      let files := updateFirst (fun u => u.id == id)
        (fun u => { u with status := .completed, progress := 100 }) s.files
      processQueue
        { s with files := files, activeUploads := s.activeUploads - 1 }
    else s
  | none => s

/-- The catch block of uploadFile: file.status = failed, file.error = msg;
then, only when retryCount is truthy (non-zero) and below MAX_RETRIES,
retryCount is incremented and the file is pushed onto the upload queue. -/
def onFailureCore (s : SchedState) (id : Nat) (msg : String) : SchedState :=
  match findTask s id with
  | some t =>
    let requeue := t.retryCount != 0 && t.retryCount < MAX_RETRIES
    let files := updateFirst (fun u => u.id == id)
      (fun u => { u with status := .failed, error := some msg,
                         retryCount :=
                           if requeue then u.retryCount + 1 else u.retryCount })
      s.files
    { s with files := files,
             uploadQueue :=
               if requeue then s.uploadQueue ++ [id] else s.uploadQueue }
  | none => s

/-- A failed dispatch: the catch block runs, then the finally block
decrements activeUploads and runs processQueue. -/
def onFailure (s : SchedState) (id : Nat) (msg : String) : SchedState :=
  match findTask s id with
  | some t =>
    if t.status == .uploading then
      let s1 := onFailureCore s id msg
      processQueue { s1 with activeUploads := s1.activeUploads - 1 }
    else s
  | none => s

/-- Observable events: user actions and transport outcomes. -/
inductive Event
  | drop
  | upload
  | retry (id : Nat)
  | remove (id : Nat)
  | progress (id loaded total : Nat)
  | succeed (id : Nat)
  | fail (id : Nat) (msg : String)

/-- One step of the scheduler. -/
def step (s : SchedState) : Event → SchedState
  | .drop => addFile s
  | .upload => handleUpload s
  | .retry id => handleRetry s id
  | .remove id => handleRemove s id
  | .progress id loaded total => onProgress s id loaded total
  | .succeed id => onSuccess s id
  | .fail id msg => onFailure s id msg

/-- The initial component state. -/
def initState : SchedState :=
  { files := [], uploadQueue := [], activeUploads := 0, nextId := 0 }

/-- Run a sequence of events from the initial state. -/
def run (evs : List Event) : SchedState :=
  evs.foldl step initState

end Uploader

namespace Server

/-- The mongoose File schema fields that the server writes. -/
structure FileRecord where
  filename : String
  originalName : String
  size : Nat
  mimeType : String
  url : String
  status : String
  uploadDate : Nat
deriving DecidableEq, Repr

/-- The two external stores: the S3 bucket (set of keys) and the MongoDB
files collection. -/
structure Store where
  blobs : List String
  records : List FileRecord
deriving DecidableEq, Repr

/-- Responses of POST /api/upload. -/
inductive UploadResponse
  | success (key url : String)
  | failure (code : Nat) (error : String)
deriving DecidableEq, Repr

/-- The object key: uploads/ followed by Date.now() and the original name. -/
def mkKey (now : Nat) (name : String) : String :=
  "uploads/" ++ toString now ++ "-" ++ name

/-- The body of the upload route handler after multer accepted the file.
The booleans are the outcomes of the three external operations: the S3
PutObject, the mongoose save, and the compensating S3 DeleteObject.  The
handler tries the put; on success it tries the save and answers success;
if either throws, the catch block best-effort deletes the key and the
error handler middleware turns the rethrown error into a 500 response. -/
def uploadHandler (st : Store) (bucket name mime : String) (size now : Nat)
    (putOk saveOk deleteOk : Bool) : Store × UploadResponse :=
  let key := mkKey now name
  if putOk then
    let st1 : Store := { st with blobs := st.blobs ++ [key] }
    if saveOk then
      let doc : FileRecord :=
        { filename := key, originalName := name, size := size,
          mimeType := mime,
          url := "https://" ++ bucket ++ ".s3.amazonaws.com/" ++ key,
          status := "completed", uploadDate := now }
      ({ st1 with records := st1.records ++ [doc] }, .success key doc.url)
    else
      let st2 : Store :=
        if deleteOk then { st1 with blobs := st1.blobs.filter (fun k => k ≠ key) }
        else st1
      (st2, .failure 500 "Database error")
  else
    let st2 : Store :=
      if deleteOk then { st with blobs := st.blobs.filter (fun k => k ≠ key) }
      else st
    (st2, .failure 500 "Internal server error")

/-- The allowed MIME types list from server/index.js (note the extra
image/jpg entry ahead of image/jpeg). -/
def allowedMimeTypes : List String :=
  ["image/jpg", "image/jpeg", "image/png", "image/gif", "application/pdf",
   "application/msword",
   "application/vnd.openxmlformats-officedocument.wordprocessingml.document",
   "text/plain"]

/-- The multer limits.fileSize value: 10MB. -/
def MAX_UPLOAD_SIZE : Nat := 10 * 1024 * 1024

/-- Possible outcomes of the multer gate in front of the route handler. -/
inductive MulterOutcome
  | ok
  | tooLarge
  | badType
deriving DecidableEq, Repr

/-- The multer configuration: limits.fileSize = 10MB and a fileFilter that
accepts exactly allowedMimeTypes.  Multer itself is an external library;
the order of the two checks follows the spec section 4.4 (size before
type), which does not matter to any theorem below. -/
def multerGate (mime : String) (size : Nat) : MulterOutcome :=
  if MAX_UPLOAD_SIZE < size then .tooLarge
  else if allowedMimeTypes.contains mime then .ok
  else .badType

/-- The whole POST /api/upload pipeline: the multer gate, the error handler
middleware for its rejections, and the route handler.  A LIMIT_FILE_SIZE
MulterError becomes 400 File size too large; a fileFilter rejection is a
plain Error, which the error handler middleware maps to a 500; neither
reaches the blob store or the database. -/
def postUpload (st : Store) (bucket name mime : String) (size now : Nat)
    (putOk saveOk deleteOk : Bool) : Store × UploadResponse :=
  match multerGate mime size with
  | .tooLarge => (st, .failure 400 "File size too large")
  | .badType => (st, .failure 500 "Internal server error")
  | .ok => uploadHandler st bucket name mime size now putOk saveOk deleteOk

/-- The pagination object in the GET /api/files response. -/
structure Pagination where
  total : Nat
  page : Nat
  limit : Nat
  pages : Nat
deriving DecidableEq, Repr

/-- The sort key of File.find().sort with uploadDate -1: descending upload
time, that is, later records first. -/
def dateDesc (a b : FileRecord) : Prop := b.uploadDate ≤ a.uploadDate

instance : DecidableRel dateDesc := fun a b =>
  inferInstanceAs (Decidable (b.uploadDate ≤ a.uploadDate))

instance : IsTotal FileRecord dateDesc :=
  ⟨fun a b => Nat.le_total b.uploadDate a.uploadDate⟩

instance : IsTrans FileRecord dateDesc :=
  ⟨fun _ _ _ h1 h2 => Nat.le_trans h2 h1⟩

/-- GET /api/files: skip = (page - 1) * limit records of the collection
sorted by uploadDate descending, return at most limit of them, and the
pagination object with pages = Math.ceil(total / limit), which for a
positive integer limit is (total + limit - 1) / limit in integers. -/
def getFiles (records : List FileRecord) (page limit : Nat) :
    List FileRecord × Pagination :=
  let skip := (page - 1) * limit
  let sorted := records.insertionSort dateDesc
  ((sorted.drop skip).take limit,
   { total := records.length, page := page, limit := limit,
     pages := (records.length + limit - 1) / limit })

/-- The S3 client object built in server/config.js. -/
structure S3ClientObj where
  region : String
deriving DecidableEq, Repr

/-- config.js: new S3Client with region from the environment or us-east-1.
The constructor is unconditional and cannot fail, so the module-level
binding always holds an object. -/
def s3ClientStartup (awsRegion : Option String) : Option S3ClientObj :=
  some { region := awsRegion.getD "us-east-1" }

/-- The GET /health response body services object. -/
structure Health where
  mongodb : Bool
  s3 : Bool
deriving DecidableEq, Repr

/-- The /health handler: mongodb is mongoose.connection.readyState === 1,
s3 is the truthiness of the s3Client binding. -/
def healthHandler (mongoReadyState : Nat) (s3c : Option S3ClientObj) : Health :=
  { mongodb := mongoReadyState == 1, s3 := s3c.isSome }

end Server

namespace Uploader

/-- Claim C1 (code bug): the concurrency bound fails.  With four selected
files, clicking Upload admits two of them; clicking Upload again while those
two are still in flight re-enqueues the remaining pending files and, because
handleUpload resets activeUploads.current to 0 unconditionally, admits two
more, so four tasks are simultaneously in the uploading state, exceeding
MAX_CONCURRENT_UPLOADS = 2. -/
theorem concurrencyBoundViolation :
    ((run [.drop, .drop, .drop, .drop, .upload, .upload]).files.filter
        (fun t => t.status == .uploading)).length = 4 ∧
      MAX_CONCURRENT_UPLOADS < 4 := by
  decide

/-- Claim C2 (code bug): a task that fails on its very first attempt
(retryCount = 0) is not re-enqueued: the guard on the truthiness of
file.retryCount is false at 0, so the task is left failed, with its error
set, retryCount still 0, and the upload queue empty. -/
theorem firstAttemptFailureNotRequeued :
    run [.drop, .upload, .fail 0 "Network error occurred"] =
      { files := [{ id := 0, status := .failed, progress := 0,
                    error := some "Network error occurred", retryCount := 0 }],
        uploadQueue := [], activeUploads := 0, nextId := 1 } := by
  decide

/-- The duplicate-dispatch trace: a task that failed once is retried while
both slots are busy, auto-requeues behind another queued file on its next
failure, is manually retried again while still queued (handleRetry pushes
with no membership check), so it sits twice in the queue, is dispatched
twice as slots free, completes from its first request, and then receives a
progress event from its second, still-running request. -/
def dupTrace : List Event :=
  [.drop, .drop, .drop, .drop, .upload, .fail 0 "e", .retry 0,
   .succeed 1, .succeed 2, .drop, .drop, .drop, .upload, .fail 0 "e",
   .retry 0, .succeed 4, .succeed 5, .succeed 0, .progress 0 1 2]

/-- Claim C4 counterexample: every claimed equivalence direction except
Failed implies error fails.  After a progress event with loaded = total =
500 the task has progress 100 while still uploading; after a manual retry
followed by a second failure the automatic requeue immediately re-dispatches
the task, so it is uploading with its error still set; and on the
duplicate-dispatch trace the first request completes the task and the
second request then overwrites its progress with 50, leaving a Completed
task with progress below 100. -/
theorem stateProgressConsistencyFails :
    (run [.drop, .upload, .progress 0 500 500]).files =
      [{ id := 0, status := .uploading, progress := 100,
         error := none, retryCount := 0 }] ∧
    (run [.drop, .upload, .fail 0 "Upload failed with status 500: e",
          .retry 0, .fail 0 "Upload failed with status 500: e"]).files =
      [{ id := 0, status := .uploading, progress := 0,
         error := some "Upload failed with status 500: e", retryCount := 2 }] ∧
    (run dupTrace).files.find? (fun t => t.id == 0) =
      some { id := 0, status := .completed, progress := 50,
             error := none, retryCount := 3 } := by
  decide

/-- Claim C5 counterexample: a permanent 4xx failure is retried
automatically.  A task fails once (surfaced, retryCount stays 0), the user
retries manually (retryCount becomes 1), and the retried dispatch fails with
a 400 response; the catch block now re-enqueues it and processQueue
immediately re-dispatches it, with no user action after the failure: the
task ends uploading with retryCount 2. -/
theorem nonRetryableAutoRetried :
    run [.drop, .upload, .fail 0 "Upload failed with status 400: Bad Request",
         .retry 0, .fail 0 "Upload failed with status 400: Bad Request"] =
      { files := [{ id := 0, status := .uploading, progress := 0,
                    error := some "Upload failed with status 400: Bad Request",
                    retryCount := 2 }],
        uploadQueue := [], activeUploads := 1, nextId := 1 } := by
  decide

/-- Claim C6 counterexample: progress is Math.round, not truncation.  A
progress event with loaded 998 of total 1000 writes 100 into task.progress
while the task is still uploading, although the truncated percent is 99. -/
theorem progressRoundsUp :
    (run [.drop, .upload, .progress 0 998 1000]).files =
      [{ id := 0, status := .uploading, progress := 100,
         error := none, retryCount := 0 }] ∧
    (100 * 998) / 1000 = 99 := by
  decide

end Uploader

namespace Uploader

/-- Membership after an in-place update: an element of the updated list is
either an untouched element of the original list or the image of the first
match of the predicate. -/
theorem mem_updateFirst {p : Task → Bool} {f : Task → Task} :
    ∀ {l : List Task} {u : Task}, u ∈ updateFirst p f l →
      u ∈ l ∨ ∃ t, l.find? p = some t ∧ u = f t := by
  intro l
  induction l with
  | nil => intro u hu; simp [updateFirst] at hu
  | cons a as ih =>
    intro u hu
    by_cases hpa : p a
    · rw [updateFirst, if_pos hpa] at hu
      rcases List.mem_cons.mp hu with h | h
      · exact Or.inr ⟨a, List.find?_cons_of_pos _ hpa, h⟩
      · exact Or.inl (List.mem_cons_of_mem _ h)
    · rw [updateFirst, if_neg hpa] at hu
      rcases List.mem_cons.mp hu with h | h
      · exact Or.inl (h ▸ List.mem_cons_self _ _)
      · rcases ih h with h' | ⟨t, ht, hu'⟩
        · exact Or.inl (List.mem_cons_of_mem _ h')
        · exact Or.inr ⟨t, by rw [List.find?_cons_of_neg _ hpa]; exact ht, hu'⟩

/-- Looking up the updated object after an in-place update: when the update
preserves the predicate, find? returns the image of the previous value. -/
theorem find?_updateFirst {p : Task → Bool} {f : Task → Task} :
    ∀ {l : List Task} {t : Task}, l.find? p = some t → p (f t) = true →
      (updateFirst p f l).find? p = some (f t) := by
  intro l
  induction l with
  | nil => intro t h _; simp at h
  | cons a as ih =>
    intro t h hp
    by_cases hpa : p a
    · rw [List.find?_cons_of_pos _ hpa] at h
      cases h
      rw [updateFirst, if_pos hpa]
      exact List.find?_cons_of_pos _ hp
    · rw [List.find?_cons_of_neg _ hpa] at h
      rw [updateFirst, if_neg hpa, List.find?_cons_of_neg _ hpa]
      exact ih h hp

/-- The per-task part of the spec invariant that the code does maintain:
failed tasks carry an error.  (The companion direction, completed tasks
showing progress 100, is refuted below: a stale progress event from a
duplicate dispatch overwrites a completed task.) -/
def TaskOk (t : Task) : Prop :=
  t.status = .failed → t.error.isSome = true

theorem taskOk_of_not_failed {t : Task} (hf : t.status ≠ .failed) : TaskOk t :=
  fun h => absurd h hf

theorem taskOk_updateFirst {p : Task → Bool} {f : Task → Task} {l : List Task}
    (hl : ∀ t ∈ l, TaskOk t)
    (hf : ∀ t, l.find? p = some t → TaskOk (f t)) :
    ∀ u ∈ updateFirst p f l, TaskOk u := by
  intro u hu
  rcases mem_updateFirst hu with h | ⟨t, ht, rfl⟩
  · exact hl u h
  · exact hf t ht

theorem taskOk_dispatchTask {l : List Task} (hl : ∀ t ∈ l, TaskOk t) (id : Nat) :
    ∀ u ∈ dispatchTask l id, TaskOk u := by
  intro u hu
  exact taskOk_updateFirst hl (fun t _ => taskOk_of_not_failed (by simp)) u hu

theorem taskOk_processQueueAux :
    ∀ (q : List Nat) (a : Int) (files : List Task),
      (∀ t ∈ files, TaskOk t) →
      ∀ u ∈ (processQueueAux q a files).2.2, TaskOk u := by
  intro q
  induction q with
  | nil => intro a files h u hu; exact h u hu
  | cons id rest ih =>
    intro a files h u hu
    rw [processQueueAux] at hu
    by_cases hlt : a < (MAX_CONCURRENT_UPLOADS : Int)
    · rw [if_pos hlt] at hu
      exact ih _ _ (taskOk_dispatchTask h id) u hu
    · rw [if_neg hlt] at hu
      exact h u hu

theorem taskOk_processQueue {s : SchedState} (h : ∀ t ∈ s.files, TaskOk t) :
    ∀ u ∈ (processQueue s).files, TaskOk u :=
  taskOk_processQueueAux s.uploadQueue s.activeUploads s.files h
theorem taskOk_step (s : SchedState) (e : Event)
    (h : ∀ t ∈ s.files, TaskOk t) : ∀ t ∈ (step s e).files, TaskOk t := by
  cases e with
  | drop =>
    intro t ht
    rw [step, addFile] at ht
    rcases List.mem_append.mp ht with h' | h'
    · exact h t h'
    · rcases List.mem_singleton.mp h' with rfl
      exact taskOk_of_not_failed (by simp)
  | upload =>
    intro t ht
    rw [step] at ht
    exact taskOk_processQueueAux _ _ _ h t ht
  | retry id =>
    intro t ht
    rw [step] at ht
    unfold handleRetry at ht
    split at ht
    · split at ht
      · split at ht
        · exact taskOk_dispatchTask (taskOk_updateFirst h fun v _ =>
            taskOk_of_not_failed (by simp)) id t ht
        · exact taskOk_updateFirst h (fun v _ =>
            taskOk_of_not_failed (by simp)) t ht
      · exact h t ht
    · exact h t ht
  | remove id =>
    intro t ht
    rw [step, handleRemove] at ht
    exact h t (List.mem_filter.mp ht).1
  | progress id loaded total =>
    intro t ht
    rw [step] at ht
    unfold onProgress at ht
    split at ht
    · refine taskOk_updateFirst h (fun v hv => ?_) t ht
      exact h v (List.mem_of_find?_eq_some hv)
    · exact h t ht
  | succeed id =>
    intro t ht
    rw [step] at ht
    unfold onSuccess at ht
    split at ht
    · split at ht
      · refine taskOk_processQueueAux _ _ _ ?_ t ht
        exact taskOk_updateFirst h (fun v _ => taskOk_of_not_failed (by simp))
      · exact h t ht
    · exact h t ht
  | fail id msg =>
    intro t ht
    rw [step] at ht
    unfold onFailure at ht
    split at ht
    · split at ht
      · refine taskOk_processQueueAux _ _ _ ?_ t ht
        intro v hv
        unfold onFailureCore at hv
        split at hv
        · refine taskOk_updateFirst h (fun w _ => ?_) v hv
          exact fun _ => rfl
        · exact h v hv
      · exact h t ht
    · exact h t ht

theorem taskOk_run (evs : List Event) :
    ∀ s, (∀ t ∈ s.files, TaskOk t) →
      ∀ t ∈ (evs.foldl step s).files, TaskOk t := by
  induction evs with
  | nil => intro s h; exact h
  | cons e evs ih => intro s h; exact ih _ (taskOk_step s e h)

end Uploader

namespace Uploader

/-- Claim C4 (amended): at every point of every run, a Failed task has its
error set; the other three directions of the claimed equivalences are false
of the code, per the counterexample. -/
theorem failedTaskHasError (evs : List Event) (t : Task)
    (ht : t ∈ (run evs).files) :
    t.status = .failed → t.error.isSome = true :=
  taskOk_run evs initState (by intro t ht; simp [initState] at ht) t ht

/-- Witness for the C4 theorem at a concrete run: one dropped file that is
uploaded and fails. -/
theorem failedTaskHasError_witness :
    ({ id := 0, status := .failed, progress := 0, error := some "boom",
       retryCount := 0 } : Task) ∈ (run [.drop, .upload, .fail 0 "boom"]).files ∧
    (({ id := 0, status := .failed, progress := 0, error := some "boom",
        retryCount := 0 } : Task).status = .failed →
      ({ id := 0, status := .failed, progress := 0, error := some "boom",
         retryCount := 0 } : Task).error.isSome = true) :=
  ⟨by decide,
   failedTaskHasError [.drop, .upload, .fail 0 "boom"] _ (by decide)⟩

/-- Forgetting the stored error messages of every task, to compare scheduler
states up to the text of their errors. -/
def eraseErrors (s : SchedState) : SchedState :=
  { s with files := s.files.map (fun t => { t with error := none }) }

theorem map_updateFirst_congr (g : Task → Task) (p : Task → Bool)
    (f1 f2 : Task → Task) (h : ∀ t, g (f1 t) = g (f2 t)) :
    ∀ l : List Task, (updateFirst p f1 l).map g = (updateFirst p f2 l).map g := by
  intro l
  induction l with
  | nil => rfl
  | cons a as ih =>
    by_cases hpa : p a
    · simp [updateFirst, hpa, h a]
    · simp [updateFirst, hpa]
      exact ih

/-- Claim C5 (amended): the catch block of uploadFile does not classify
failure outcomes.  Its requeue decision depends only on the retry count:
the task is appended to the queue exactly when 0 < retryCount < MAX_RETRIES,
whatever the failure reason, and apart from the stored error message the
resulting state is the same for every failure reason. -/
theorem failureHandlingIgnoresOutcomeClass
    (s : SchedState) (id : Nat) (m1 m2 : String) (t : Task)
    (hf : findTask s id = some t) :
    ((onFailureCore s id m1).uploadQueue =
      if 0 < t.retryCount ∧ t.retryCount < MAX_RETRIES
      then s.uploadQueue ++ [id] else s.uploadQueue) ∧
    eraseErrors (onFailureCore s id m1) = eraseErrors (onFailureCore s id m2) := by
  constructor
  · unfold onFailureCore
    rw [hf]
    by_cases h0 : t.retryCount = 0
    · simp [h0]
    · by_cases hlt : t.retryCount < MAX_RETRIES
      · simp [h0, hlt, Nat.pos_of_ne_zero h0]
      · simp [h0, hlt]
  · unfold onFailureCore
    rw [hf]
    unfold eraseErrors
    congr 1
    refine map_updateFirst_congr _ _ _ _ ?_ s.files
    intro u
    rfl

/-- Witness for the C5 theorem: a freshly dropped file, two distinct
failure reasons. -/
theorem failureHandlingIgnoresOutcomeClass_witness :
    findTask (run [.drop]) 0 =
      some { id := 0, status := .pending, progress := 0, error := none,
             retryCount := 0 } ∧
    (((onFailureCore (run [.drop]) 0 "Upload failed with status 400: Bad Request").uploadQueue =
        if 0 < ({ id := 0, status := .pending, progress := 0, error := none,
                  retryCount := 0 } : Task).retryCount ∧
           ({ id := 0, status := .pending, progress := 0, error := none,
              retryCount := 0 } : Task).retryCount < MAX_RETRIES
        then (run [.drop]).uploadQueue ++ [0] else (run [.drop]).uploadQueue) ∧
      eraseErrors (onFailureCore (run [.drop]) 0 "Upload failed with status 400: Bad Request") =
        eraseErrors (onFailureCore (run [.drop]) 0 "Network error occurred")) :=
  ⟨by decide,
   failureHandlingIgnoresOutcomeClass (run [.drop]) 0
     "Upload failed with status 400: Bad Request" "Network error occurred" _
     (by decide)⟩

end Uploader

namespace Uploader

/-- Claim C6 (amended): a progress event with loaded bytes L of total T
writes Math.round(100 * L / T) into task.progress, exactly
(200 * L + T) / (2 * T) in integer arithmetic.  This value is the truncated
percent or one more, never exceeds 100, and equals 100 exactly when
200 * L is at least 199 * T, so it can reach 100 before completion. -/
theorem progressIsRoundedPercent (s : SchedState) (id loaded total : Nat)
    (t : Task) (hf : findTask s id = some t) (hs : t.status = .uploading)
    (hL : loaded ≤ total) (hT : 0 < total) :
    findTask (onProgress s id loaded total) id =
      some { t with progress := (200 * loaded + total) / (2 * total) } ∧
    (200 * loaded + total) / (2 * total) ≤ 100 ∧
    (100 * loaded) / total ≤ (200 * loaded + total) / (2 * total) ∧
    (200 * loaded + total) / (2 * total) ≤ (100 * loaded) / total + 1 ∧
    ((200 * loaded + total) / (2 * total) = 100 ↔
      199 * total ≤ 200 * loaded) := by
  have hdiv2 : (2 * (100 * loaded)) / (2 * total) = (100 * loaded) / total :=
    Nat.mul_div_mul_left _ _ (by omega)
  have hlt101 : (200 * loaded + total) / (2 * total) < 101 := by
    rw [Nat.div_lt_iff_lt_mul (by omega : 0 < 2 * total)]
    omega
  refine ⟨?_, ?_, ?_, ?_, ?_⟩
  · unfold onProgress
    have hcond : (decide (loaded ≤ total) && decide (0 < total)) = true := by
      simp [hL, hT]
    simp only [hcond, if_true]
    unfold findTask at hf ⊢
    have hpt := List.find?_some hf
    exact find?_updateFirst hf hpt
  · omega
  · calc (100 * loaded) / total
        = (2 * (100 * loaded)) / (2 * total) := hdiv2.symm
      _ ≤ (200 * loaded + total) / (2 * total) :=
          Nat.div_le_div_right (by omega)
  · calc (200 * loaded + total) / (2 * total)
        ≤ (200 * loaded + 2 * total) / (2 * total) :=
          Nat.div_le_div_right (by omega)
      _ = (200 * loaded) / (2 * total) + 1 :=
          Nat.add_div_right _ (by omega)
      _ = (2 * (100 * loaded)) / (2 * total) + 1 := by
          rw [show 200 * loaded = 2 * (100 * loaded) by ring]
      _ = (100 * loaded) / total + 1 := by rw [hdiv2]
  · constructor
    · intro h
      have h2 : 100 * (2 * total) ≤ 200 * loaded + total :=
        (Nat.le_div_iff_mul_le (by omega : 0 < 2 * total)).mp (le_of_eq h.symm)
      omega
    · intro h
      have h2 : 100 ≤ (200 * loaded + total) / (2 * total) :=
        (Nat.le_div_iff_mul_le (by omega : 0 < 2 * total)).mpr (by omega)
      omega

/-- Witness for the C6 theorem: one in-flight upload, a progress event of 1
of 2 bytes. -/
theorem progressIsRoundedPercent_witness :
    findTask (run [.drop, .upload]) 0 =
      some { id := 0, status := .uploading, progress := 0, error := none,
             retryCount := 0 } ∧
    ({ id := 0, status := .uploading, progress := 0, error := none,
       retryCount := 0 } : Task).status = .uploading ∧
    1 ≤ 2 ∧ 0 < 2 ∧
    (findTask (onProgress (run [.drop, .upload]) 0 1 2) 0 =
      some { id := 0, status := .uploading,
             progress := (200 * 1 + 2) / (2 * 2), error := none,
             retryCount := 0 } ∧
     (200 * 1 + 2) / (2 * 2) ≤ 100 ∧
     (100 * 1) / 2 ≤ (200 * 1 + 2) / (2 * 2) ∧
     (200 * 1 + 2) / (2 * 2) ≤ (100 * 1) / 2 + 1 ∧
     ((200 * 1 + 2) / (2 * 2) = 100 ↔ 199 * 2 ≤ 200 * 1)) :=
  ⟨by decide, by decide, by decide, by decide,
   progressIsRoundedPercent (run [.drop, .upload]) 0 1 2
     { id := 0, status := .uploading, progress := 0, error := none,
       retryCount := 0 }
     (by decide) (by decide) (by decide) (by decide)⟩

end Uploader

namespace Server

/-- A fresh key leaves the blob list unchanged when filtered out. -/
theorem filter_ne_of_not_mem {l : List String} {key : String}
    (h : key ∉ l) : l.filter (fun k => k ≠ key) = l := by
  refine List.filter_eq_self.mpr ?_
  intro a ha
  exact decide_eq_true (fun heq => h (heq ▸ ha))

/-- Claim C3: ingestion atomicity.  If the metadata write fails after a
successful blob write, the caller gets the database error, no record is
written, and (when the compensating delete succeeds) the just-written blob
is gone from the store; a record is never written unless the blob write
succeeded; and the handler preserves the invariant that every record with
status completed has its blob in the store. -/
theorem ingestionAtomicity (st : Store) (bucket name mime : String)
    (size now : Nat) (putOk saveOk deleteOk : Bool)
    (hfresh : mkKey now name ∉ st.blobs) :
    (putOk = true → saveOk = false →
      (uploadHandler st bucket name mime size now putOk saveOk deleteOk).2 =
        .failure 500 "Database error" ∧
      (uploadHandler st bucket name mime size now putOk saveOk deleteOk).1.records =
        st.records ∧
      (deleteOk = true →
        (uploadHandler st bucket name mime size now putOk saveOk deleteOk).1.blobs =
          st.blobs)) ∧
    (putOk = false →
      (uploadHandler st bucket name mime size now putOk saveOk deleteOk).1.records =
        st.records) ∧
    ((∀ r ∈ st.records, r.status = "completed" → r.filename ∈ st.blobs) →
      ∀ r ∈ (uploadHandler st bucket name mime size now putOk saveOk deleteOk).1.records,
        r.status = "completed" →
        r.filename ∈ (uploadHandler st bucket name mime size now putOk saveOk deleteOk).1.blobs) := by
  have hkeep : st.blobs.filter (fun k => k ≠ mkKey now name) = st.blobs :=
    filter_ne_of_not_mem hfresh
  have hkeep2 : (st.blobs ++ [mkKey now name]).filter
      (fun k => k ≠ mkKey now name) = st.blobs := by
    rw [List.filter_append, hkeep]
    simp
  refine ⟨?_, ?_, ?_⟩
  · rintro rfl rfl
    unfold uploadHandler
    cases deleteOk with
    | false => exact ⟨rfl, rfl, fun h => by cases h⟩
    | true => exact ⟨rfl, rfl, fun _ => hkeep2⟩
  · rintro rfl
    unfold uploadHandler
    cases saveOk <;> cases deleteOk <;> rfl
  · intro hinv r hr hc
    unfold uploadHandler at hr ⊢
    cases putOk with
    | false =>
      cases deleteOk with
      | false => exact hinv r hr hc
      | true =>
        simp only at hr ⊢
        rw [hkeep]
        exact hinv r hr hc
    | true =>
      cases saveOk with
      | true =>
        simp only at hr ⊢
        rcases List.mem_append.mp hr with h' | h'
        · exact List.mem_append_left _ (hinv r h' hc)
        · rcases List.mem_singleton.mp h' with rfl
          exact List.mem_append_right _ (List.mem_singleton.mpr rfl)
      | false =>
        cases deleteOk with
        | false =>
          simp only at hr ⊢
          exact List.mem_append_left _ (hinv r hr hc)
        | true =>
          simp only at hr ⊢
          rw [hkeep2]
          exact hinv r hr hc

/-- Witness for the C3 theorem: empty store, blob write succeeds, metadata
write fails, compensation succeeds. -/
theorem ingestionAtomicity_witness :
    mkKey 0 "f.txt" ∉ (Store.mk [] []).blobs ∧
    ((true = true → false = false →
      (uploadHandler (Store.mk [] []) "b" "f.txt" "text/plain" 1 0 true false true).2 =
        .failure 500 "Database error" ∧
      (uploadHandler (Store.mk [] []) "b" "f.txt" "text/plain" 1 0 true false true).1.records =
        (Store.mk [] []).records ∧
      (true = true →
        (uploadHandler (Store.mk [] []) "b" "f.txt" "text/plain" 1 0 true false true).1.blobs =
          (Store.mk [] []).blobs)) ∧
    (true = false →
      (uploadHandler (Store.mk [] []) "b" "f.txt" "text/plain" 1 0 true false true).1.records =
        (Store.mk [] []).records) ∧
    ((∀ r ∈ (Store.mk [] []).records, r.status = "completed" →
        r.filename ∈ (Store.mk [] []).blobs) →
      ∀ r ∈ (uploadHandler (Store.mk [] []) "b" "f.txt" "text/plain" 1 0 true false true).1.records,
        r.status = "completed" →
        r.filename ∈ (uploadHandler (Store.mk [] []) "b" "f.txt" "text/plain" 1 0 true false true).1.blobs)) :=
  ⟨by decide,
   ingestionAtomicity (Store.mk [] []) "b" "f.txt" "text/plain" 1 0 true false true
     (by decide)⟩

/-- Claim C7: a POST /api/upload whose payload exceeds the 10 MiB limit is
answered with 400 File size too large, and the store is left unchanged:
no blob and no record are created. -/
theorem oversizedUploadRejected (st : Store) (bucket name mime : String)
    (size now : Nat) (putOk saveOk deleteOk : Bool)
    (hsize : MAX_UPLOAD_SIZE < size) :
    postUpload st bucket name mime size now putOk saveOk deleteOk =
      (st, .failure 400 "File size too large") := by
  have h : multerGate mime size = .tooLarge := by
    unfold multerGate
    rw [if_pos hsize]
  unfold postUpload
  rw [h]

/-- Witness for the C7 theorem: a 15 MiB payload. -/
theorem oversizedUploadRejected_witness :
    MAX_UPLOAD_SIZE < 15 * 1024 * 1024 ∧
    postUpload (Store.mk [] []) "b" "big.bin" "text/plain"
        (15 * 1024 * 1024) 0 true true true =
      ((Store.mk [] []), .failure 400 "File size too large") :=
  ⟨by decide,
   oversizedUploadRejected (Store.mk [] []) "b" "big.bin" "text/plain"
     (15 * 1024 * 1024) 0 true true true (by decide)⟩

/-- The allow-list of the claim, as the spec words it: seven types, without
image/jpg.  Modelled from the spec for comparison with the allow-list of the
code. -/
def specAllowedMimeTypes : List String :=
  ["image/jpeg", "image/png", "image/gif", "application/pdf",
   "application/msword",
   "application/vnd.openxmlformats-officedocument.wordprocessingml.document",
   "text/plain"]

/-- Claim C8 counterexample: the declared type image/jpg is outside the
claimed seven-element allow-list, yet an upload with that type is accepted
and its blob written. -/
theorem imageJpgAcceptedOutsideSpecList :
    "image/jpg" ∉ specAllowedMimeTypes ∧
    (postUpload (Store.mk [] []) "b" "a.jpg" "image/jpg" 5 0 true true true).2 =
      .success (mkKey 0 "a.jpg")
        ("https://b.s3.amazonaws.com/" ++ mkKey 0 "a.jpg") ∧
    (postUpload (Store.mk [] []) "b" "a.jpg" "image/jpg" 5 0 true true true).1.blobs =
      [mkKey 0 "a.jpg"] := by
  refine ⟨by decide, ?_, ?_⟩ <;> rfl

/-- Claim C8 (amended): the allow-list of the code has eight entries, the
seven of the claim plus image/jpg; a file whose declared type is outside the
code allow-list is rejected with an error response and the store is left
unchanged: no blob is written for it. -/
theorem disallowedTypeRejected (st : Store) (bucket name mime : String)
    (size now : Nat) (putOk saveOk deleteOk : Bool)
    (hmime : mime ∉ allowedMimeTypes) :
    (postUpload st bucket name mime size now putOk saveOk deleteOk).1 = st ∧
    ∀ k u, (postUpload st bucket name mime size now putOk saveOk deleteOk).2 ≠
      .success k u := by
  have hc : allowedMimeTypes.contains mime = false := by
    rw [show allowedMimeTypes.contains mime = List.elem mime allowedMimeTypes
          from rfl,
        List.elem_eq_mem]
    exact decide_eq_false hmime
  unfold postUpload multerGate
  by_cases hs : MAX_UPLOAD_SIZE < size
  · rw [if_pos hs]
    exact ⟨rfl, fun k u h => by cases h⟩
  · rw [if_neg hs, hc]
    exact ⟨rfl, fun k u h => by cases h⟩

/-- Witness for the C8 theorem: a zip file. -/
theorem disallowedTypeRejected_witness :
    "application/zip" ∉ allowedMimeTypes ∧
    ((postUpload (Store.mk [] []) "b" "a.zip" "application/zip" 5 0 true true true).1 =
        (Store.mk [] []) ∧
      ∀ k u, (postUpload (Store.mk [] []) "b" "a.zip" "application/zip" 5 0 true true true).2 ≠
        .success k u) :=
  ⟨by decide,
   disallowedTypeRejected (Store.mk [] []) "b" "a.zip" "application/zip" 5 0
     true true true (by decide)⟩

/-- Claim C10: in the /health response the s3 flag is constantly true, for
every environment and every MongoDB connection state, because it is the
truthiness of the client object unconditionally constructed at startup;
the mongodb flag is true exactly when the connection readyState is 1. -/
theorem healthS3AlwaysTrue (awsRegion : Option String) (mongoReadyState : Nat) :
    (healthHandler mongoReadyState (s3ClientStartup awsRegion)).s3 = true ∧
    ((healthHandler mongoReadyState (s3ClientStartup awsRegion)).mongodb = true ↔
      mongoReadyState = 1) := by
  constructor
  · rfl
  · unfold healthHandler
    simp

end Server

namespace Server

/-- Claim C9: GET /api/files with page p and limit l returns the slice of
the records sorted by upload time descending that skips (p - 1) * l and has
at most l entries, and the pagination object carries the collection size,
the requested page and limit, and pages equal to the ceiling of total / l,
characterised by total ≤ pages * l < total + l. -/
theorem filesPagination (records : List FileRecord) (p l : Nat)
    (hp : 1 ≤ p) (hl : 1 ≤ l) :
    (getFiles records p l).1 =
      ((records.insertionSort dateDesc).drop ((p - 1) * l)).take l ∧
    (records.insertionSort dateDesc).Perm records ∧
    List.Sorted dateDesc (records.insertionSort dateDesc) ∧
    (getFiles records p l).1.length =
      min l (records.length - (p - 1) * l) ∧
    (getFiles records p l).2.total = records.length ∧
    (getFiles records p l).2.page = p ∧
    (getFiles records p l).2.limit = l ∧
    records.length ≤ (getFiles records p l).2.pages * l ∧
    (getFiles records p l).2.pages * l < records.length + l := by
  refine ⟨rfl, List.perm_insertionSort _ _, List.sorted_insertionSort _ _,
    ?_, rfl, rfl, rfl, ?_, ?_⟩
  · show (((records.insertionSort dateDesc).drop ((p - 1) * l)).take l).length = _
    rw [List.length_take, List.length_drop, List.length_insertionSort]
  · show records.length ≤ (records.length + l - 1) / l * l
    rw [Nat.mul_comm]
    have h2 := Nat.div_add_mod (records.length + l - 1) l
    have h3 : (records.length + l - 1) % l < l := Nat.mod_lt _ (by omega)
    generalize hq : (records.length + l - 1) / l = q at h2 ⊢
    generalize hr : (records.length + l - 1) % l = r at h2 h3
    generalize hM : l * q = M at h2 ⊢
    omega
  · calc (getFiles records p l).2.pages * l
        ≤ records.length + l - 1 := Nat.div_mul_le_self _ _
      _ < records.length + l := by omega

/-- Twenty-five stored records with distinct upload times. -/
def recs25 : List FileRecord :=
  (List.range 25).map fun i =>
    { filename := toString i, originalName := "f", size := 1,
      mimeType := "text/plain", url := "u", status := "completed",
      uploadDate := i }

/-- Witness for the C9 theorem: page 2 with limit 10 over 25 records yields
10 records and 3 pages. -/
theorem filesPagination_witness :
    1 ≤ 2 ∧ 1 ≤ 10 ∧
    (getFiles recs25 2 10).1.length = 10 ∧
    (getFiles recs25 2 10).2.pages = 3 ∧
    ((getFiles recs25 2 10).1 =
        ((recs25.insertionSort dateDesc).drop ((2 - 1) * 10)).take 10 ∧
      (recs25.insertionSort dateDesc).Perm recs25 ∧
      List.Sorted dateDesc (recs25.insertionSort dateDesc) ∧
      (getFiles recs25 2 10).1.length =
        min 10 (recs25.length - (2 - 1) * 10) ∧
      (getFiles recs25 2 10).2.total = recs25.length ∧
      (getFiles recs25 2 10).2.page = 2 ∧
      (getFiles recs25 2 10).2.limit = 10 ∧
      recs25.length ≤ (getFiles recs25 2 10).2.pages * 10 ∧
      (getFiles recs25 2 10).2.pages * 10 < recs25.length + 10) :=
  ⟨by decide, by decide, by decide, by decide,
   filesPagination recs25 2 10 (by decide) (by decide)⟩

end Server
